import Mathlib

/-!
Verification of the Asteroids game core (`src/game.rs`).

The Rust code is shallowly embedded over the real numbers: every `f32`/`f64`
value becomes a real number, the raylib `Vector2` becomes `Vec2`, and the
thread-local random generator is replaced by an injected stream of unit
samples `u : Nat -> Real` (sample `u k` in `[0,1)` drives the `k`-th call to
`gen_range`, via `genRange lo hi u = lo + u * (hi - lo)`).
-/

namespace AsteroidsRs

noncomputable section

/-- 2D vector over the reals, modelling raylib `Vector2` (two `f32` fields). -/
structure Vec2 where
  x : ℝ
  y : ℝ

instance : Add Vec2 := ⟨fun a b => ⟨a.x + b.x, a.y + b.y⟩⟩

/-- raylib `Vector2::scale` (and `Vector2 * f32`): componentwise scaling. -/
def Vec2.scaleBy (v : Vec2) (s : ℝ) : Vec2 := ⟨v.x * s, v.y * s⟩

/-- raylib `Vector2 / f32`: componentwise division. -/
def Vec2.divBy (v : Vec2) (s : ℝ) : Vec2 := ⟨v.x / s, v.y / s⟩

/-- raylib `Vector2::rotate(angle)`. -/
def Vec2.rotate (v : Vec2) (angle : ℝ) : Vec2 :=
  ⟨v.x * Real.cos angle - v.y * Real.sin angle,
   v.x * Real.sin angle + v.y * Real.cos angle⟩

/-- Rust `f32::clamp(lo, hi)` on one scalar. -/
def rclamp (lo hi v : ℝ) : ℝ := if v < lo then lo else if v > hi then hi else v

/-- raylib `Vector2::clamp(lo..hi)`: clamps each axis independently. -/
def Vec2.clampAxes (v : Vec2) (lo hi : ℝ) : Vec2 := ⟨rclamp lo hi v.x, rclamp lo hi v.y⟩

/-- `rng.gen_range(lo..hi)` on floats, driven by one unit sample `u` in `[0,1)`. -/
def genRange (lo hi u : ℝ) : ℝ := lo + u * (hi - lo)

/-- An injected random sequence: every entry is a unit sample in `[0,1)`. -/
def UnitStream (u : ℕ → ℝ) : Prop := ∀ k, 0 ≤ u k ∧ u k < 1

/-- The same stream with its first `n` samples consumed. -/
def streamDrop (u : ℕ → ℝ) (n : ℕ) : ℕ → ℝ := fun k => u (n + k)

/-- Display colour; only `Color::WHITE` is used by the embedded code. -/
inductive Color where
  | white

namespace Game

/-- `Game::WIDTH`. -/
def WIDTH : ℕ := 800

/-- `Game::HEIGHT`. -/
def HEIGHT : ℕ := 800

/-- `Game::DIFFICULTY`. -/
def DIFFICULTY : ℝ := 2.5

/-- `Game::MID_X`. -/
def MID_X : ℝ := (WIDTH : ℝ) / 2

/-- `Game::MID_Y`. -/
def MID_Y : ℝ := (HEIGHT : ℝ) / 2

/-- `CLOSEST`, the minimal spawn-circle radius used inside `Game::levelup`. -/
def CLOSEST : ℝ := 150.0

end Game

/-- `Model<SIZE>`: a fixed-size polygon relative to zero, plus placement state. -/
structure Model (SIZE : ℕ) where
  points : Fin SIZE → Vec2
  position : Vec2
  rotation : ℝ
  scale : ℝ
  color : Color

/-- `Model::new`. -/
def Model.new {SIZE : ℕ} (points : Fin SIZE → Vec2) (position : Vec2) : Model SIZE :=
  { points := points, position := position, rotation := 0, scale := 1, color := Color.white }

/-- `Model::draw_points`: each local point rotated, scaled and translated, with
the first transformed point appended once more to close the loop (the batch is
initialised with zero vectors, so an empty model would yield `[⟨0,0⟩]`). -/
def Model.draw_points {SIZE : ℕ} (m : Model SIZE) : List Vec2 :=
  let base : List Vec2 :=
    List.ofFn fun i => ((m.points i).rotate m.rotation).scaleBy m.scale + m.position
  base ++ [base.headD ⟨0, 0⟩]

/-- `Model::get_direction`. -/
def Model.get_direction {SIZE : ℕ} (m : Model SIZE) : Vec2 :=
  ⟨Real.sin m.rotation, -Real.cos m.rotation⟩

/-- `Model::apply_constraints`: the toroidal wrap against the arena bounds. -/
def Model.apply_constraints {SIZE : ℕ} (m : Model SIZE) : Model SIZE :=
  let x :=
    if m.position.x < 0 then m.position.x + (Game.WIDTH : ℝ)
    else if m.position.x > (Game.WIDTH : ℝ) then m.position.x - (Game.WIDTH : ℝ)
    else m.position.x
  let y :=
    if m.position.y < 0 then m.position.y + (Game.HEIGHT : ℝ)
    else if m.position.y > (Game.HEIGHT : ℝ) then m.position.y - (Game.HEIGHT : ℝ)
    else m.position.y
  { m with position := ⟨x, y⟩ }

/-- `Player`. -/
structure Player where
  model : Model 4
  force : Vec2

namespace Player

/-- `Player::SPEED`. -/
def SPEED : ℝ := 5.0

/-- `Player::MAX_SPEED`. -/
def MAX_SPEED : ℝ := 300.0

/-- `Player::ROTATIONAL_SPEED`. -/
def ROTATIONAL_SPEED : ℝ := 7.5

/-- `Player::POINTS`. -/
def POINTS : Fin 4 → Vec2 := ![⟨0, -20⟩, ⟨-10, 10⟩, ⟨0, 5⟩, ⟨10, 10⟩]

/-- `<Player as Entity>::spawn`. -/
def spawn (position : Vec2) : Player :=
  { model := Model.new POINTS position, force := ⟨0, 0⟩ }

/-- `<Player as Entity>::apply`: Euler step by the force, then the wrap. -/
def apply (p : Player) (delta_time : ℝ) : Player :=
  { p with model :=
      ({ p.model with position := p.model.position + p.force.scaleBy delta_time }).apply_constraints }

end Player

/-- `AsteroidType`. -/
inductive AsteroidType where
  | Small
  | Medium
  | Large

/-- `AsteroidType::size`. -/
def AsteroidType.size : AsteroidType → ℝ
  | .Small => 0.3
  | .Medium => 1.0
  | .Large => 2.0

/-- `AsteroidType::degrade`. -/
def AsteroidType.degrade : AsteroidType → Option AsteroidType
  | .Small => none
  | .Medium => some .Small
  | .Large => some .Medium

/-- `AsteroidType::random`: one integer draw uniform over the three variants,
modelled from one unit sample (`gen_range(0..3)` becomes the floor of `3u`). -/
def AsteroidType.random (u : ℝ) : AsteroidType :=
  if u * 3 < 1 then .Small else if u * 3 < 2 then .Medium else .Large

/-- `Asteroid`; the field `cls` models the Rust field `class` (a Lean keyword). -/
structure Asteroid where
  model : Model 10
  direction : Vec2
  cls : AsteroidType

namespace Asteroid

/-- `Asteroid::DEFAULT_MAX`. -/
def DEFAULT_MAX : ℝ := 80.0

/-- `Asteroid::DEFAULT_MIN`. -/
def DEFAULT_MIN : ℝ := 20.0

/-- `Asteroid::SPEED`. -/
def SPEED : ℝ := 100.0

/-- The angle at which the i-th polygon point of a spawned asteroid is placed:
`i` increments of `2 * pi / 9` starting from `0` (the loop variable `current`). -/
def angleAt (i : ℕ) : ℝ := (i : ℝ) * (2 * Real.pi / 9)

/-- `<Asteroid as Entity>::spawn`, the thread-local rng replaced by the stream
`u`, consumed in source order: sample 0 picks the class, samples 1 and 2 the
drift direction, and samples `3 + 2i`, `4 + 2i` the two radii of point `i`. -/
def spawn (position : Vec2) (u : ℕ → ℝ) : Asteroid :=
  let cls := AsteroidType.random (u 0)
  let direction : Vec2 := ⟨genRange (-1) 1 (u 1), genRange (-1) 1 (u 2)⟩
  let mn := DEFAULT_MIN * cls.size
  let mx := DEFAULT_MAX * cls.size
  let points : Fin 10 → Vec2 := fun i =>
    ⟨Real.sin (angleAt (i : ℕ)) * genRange mn mx (u (3 + 2 * (i : ℕ))),
     Real.cos (angleAt (i : ℕ)) * genRange mn mx (u (4 + 2 * (i : ℕ)))⟩
  { model := Model.new points position, direction := direction, cls := cls }

/-- `<Asteroid as Entity>::apply`: drift scaled inversely by the class size,
then the wrap. -/
def apply (a : Asteroid) (delta_time : ℝ) : Asteroid :=
  { a with model :=
      ({ a.model with position := a.model.position +
          ((a.direction.divBy a.cls.size).scaleBy SPEED).scaleBy delta_time }).apply_constraints }

end Asteroid

/-- `Game`. -/
structure Game where
  player : Player
  asteroids : List Asteroid
  level : ℕ
  pause : Bool
  pause_time : ℝ
  pause_end : ℝ
  show_level : Bool

namespace Game

/-- `Game::new`. -/
def new : Game :=
  { player := Player.spawn ⟨(WIDTH : ℝ) / 2, (HEIGHT : ℝ) / 2⟩,
    asteroids := [], level := 0, pause := false,
    pause_time := 0, pause_end := 0, show_level := false }

/-- The obstacle count computed inside `Game::levelup`:
`(level as f32 * DIFFICULTY).round()`. Rust rounds half away from zero, which
on the nonnegative arguments arising here agrees with Mathlib `round`. -/
def levelCount (level : ℕ) : ℤ := round ((level : ℝ) * DIFFICULTY)

/-- `Game::levelup`, the rng replaced by the stream `u`: iteration `i` consumes
samples `25i` and `25i + 1` for the two spawn-circle radii and hands samples
`25i + 2 .. 25i + 24` to `Asteroid::spawn` (which draws 23 samples). Note the
source only reserves capacity and pushes: the new batch is appended after any
obstacles already present. -/
def levelup (g : Game) (u : ℕ → ℝ) : Game :=
  let level := g.level + 1
  let count : ℕ := (levelCount level).toNat
  let increment : ℝ := 2 * Real.pi / ((levelCount level : ℤ) : ℝ)
  let fresh : List Asteroid := List.ofFn fun i : Fin count =>
    let current := (i : ℝ) * increment
    let x := Real.sin current * genRange CLOSEST (CLOSEST * 2) (u (25 * (i : ℕ))) + MID_X
    let y := Real.cos current * genRange CLOSEST (CLOSEST * 2) (u (25 * (i : ℕ) + 1)) + MID_Y
    Asteroid.spawn ⟨x, y⟩ (streamDrop u (25 * (i : ℕ) + 2))
  { g with
    level := level,
    player := { g.player with model := { g.player.model with position := ⟨MID_X, MID_Y⟩ } },
    asteroids := g.asteroids ++ fresh,
    pause := true, pause_end := 2.0, show_level := true }

end Game

/-- Per-tick key-down snapshot (`KEY_A`, `KEY_D`, `KEY_W`). -/
structure Input where
  keyA : Bool
  keyD : Bool
  keyW : Bool

namespace Game

/-- `Game::update`; `time` models `rl.get_time()` and `dt` models
`rl.get_frame_time()`. -/
def update (g : Game) (inp : Input) (time dt : ℝ) : Game :=
  if g.pause then
    let pt := if g.pause_time = 0 then time else g.pause_time
    if time - pt ≥ g.pause_end then
      { g with pause := false, show_level := false, pause_time := 0 }
    else
      { g with pause_time := pt }
  else
    let rot0 := g.player.model.rotation
    let rot1 := if inp.keyA then rot0 - Player.ROTATIONAL_SPEED * dt else rot0
    let rot2 := if inp.keyD then rot1 + Player.ROTATIONAL_SPEED * dt else rot1
    let pl1 : Player := { g.player with model := { g.player.model with rotation := rot2 } }
    let force :=
      if inp.keyW then
        (pl1.force + pl1.model.get_direction.scaleBy Player.SPEED).clampAxes
          (-Player.MAX_SPEED) Player.MAX_SPEED
      else
        pl1.force.scaleBy 0.98
    let pl2 : Player := { pl1 with force := force }
    { g with player := pl2.apply dt, asteroids := g.asteroids.map fun a => a.apply dt }

/-- `Game::pause` (renamed here because `pause` already names the flag field). -/
def setPause (g : Game) (time : ℝ) : Game := { g with pause_end := time, pause := true }

/-- N successive `update` calls, with per-tick inputs, clock readings and frame
times given as sequences. -/
def updates (g : Game) (inps : ℕ → Input) (times dts : ℕ → ℝ) : ℕ → Game
  | 0 => g
  | n + 1 => (updates g inps times dts n).update (inps n) (times n) (dts n)

end Game

/-- Game states reachable through the public mutating API from `Game::new`. -/
inductive Reachable : Game → Prop
  | new : Reachable Game.new
  | update (g : Game) (inp : Input) (time dt : ℝ) :
      Reachable g → Reachable (g.update inp time dt)
  | levelup (g : Game) (u : ℕ → ℝ) :
      Reachable g → Reachable (g.levelup u)
  | pauseCall (g : Game) (time : ℝ) :
      Reachable g → Reachable (g.setPause time)

/-- Per-axis bound on the player force (the C4 invariant). -/
def forceBounded (g : Game) : Prop :=
  |g.player.force.x| ≤ Player.MAX_SPEED ∧ |g.player.force.y| ≤ Player.MAX_SPEED

/-- The all-zero unit stream. -/
def zeroU : ℕ → ℝ := fun _ => 0

/-- A unit stream whose sample 5 (the x-radius of spawned point 1) is `1/2`
while every other sample is `0`. -/
def exU : ℕ → ℝ := fun k => if k = 5 then 1 / 2 else 0

/-- The no-keys-down input snapshot. -/
def noKeys : Input := ⟨false, false, false⟩

/-- A one-point model positioned outside the arena on both axes. -/
def wrapProbe : Model 1 := Model.new ![⟨0, 0⟩] ⟨-5, 900⟩

/-- A fresh game whose player was given a nonzero force. -/
def dragProbe : Game :=
  { Game.new with player := { Game.new.player with force := ⟨100, 0⟩ } }

/-- A fresh game put into a latched pause (start 1, duration 2). -/
def pausedProbe : Game :=
  { Game.new with pause := true, pause_time := 1, pause_end := 2 }

end

/-! ## Helper lemmas -/

theorem Vec2.add_def (a b : Vec2) : a + b = ⟨a.x + b.x, a.y + b.y⟩ := rfl

theorem AsteroidType.size_pos (t : AsteroidType) : 0 < t.size := by
  cases t <;> norm_num [AsteroidType.size]

theorem Model.apply_constraints_position_x {n : ℕ} (m : Model n) :
    (m.apply_constraints).position.x =
      if m.position.x < 0 then m.position.x + (Game.WIDTH : ℝ)
      else if m.position.x > (Game.WIDTH : ℝ) then m.position.x - (Game.WIDTH : ℝ)
      else m.position.x := rfl

theorem Model.apply_constraints_position_y {n : ℕ} (m : Model n) :
    (m.apply_constraints).position.y =
      if m.position.y < 0 then m.position.y + (Game.HEIGHT : ℝ)
      else if m.position.y > (Game.HEIGHT : ℝ) then m.position.y - (Game.HEIGHT : ℝ)
      else m.position.y := rfl

theorem rclamp_le_of (lo hi v : ℝ) (h : lo ≤ hi) :
    lo ≤ rclamp lo hi v ∧ rclamp lo hi v ≤ hi := by
  unfold rclamp
  split_ifs with h1 h2
  · exact ⟨le_refl _, h⟩
  · exact ⟨h, le_refl _⟩
  · exact ⟨not_lt.1 h1, not_lt.1 h2⟩

theorem Vec2.abs_clampAxes_le (v : Vec2) (b : ℝ) (hb : 0 ≤ b) :
    |(v.clampAxes (-b) b).x| ≤ b ∧ |(v.clampAxes (-b) b).y| ≤ b := by
  have h1 := rclamp_le_of (-b) b v.x (by linarith)
  have h2 := rclamp_le_of (-b) b v.y (by linarith)
  exact ⟨abs_le.2 ⟨h1.1, h1.2⟩, abs_le.2 ⟨h2.1, h2.2⟩⟩

theorem Game.update_paused_player (g : Game) (inp : Input) (time dt : ℝ)
    (hp : g.pause = true) : (g.update inp time dt).player = g.player := by
  unfold Game.update
  rw [hp]
  simp only [eq_self_iff_true, if_true]
  split <;> split <;> rfl

theorem Game.update_paused_asteroids (g : Game) (inp : Input) (time dt : ℝ)
    (hp : g.pause = true) : (g.update inp time dt).asteroids = g.asteroids := by
  unfold Game.update
  rw [hp]
  simp only [eq_self_iff_true, if_true]
  split <;> split <;> rfl

theorem Game.update_paused_stall (g : Game) (inp : Input) (time dt : ℝ)
    (hp : g.pause = true)
    (hlt : time - (if g.pause_time = 0 then time else g.pause_time) < g.pause_end) :
    g.update inp time dt =
      { g with pause_time := if g.pause_time = 0 then time else g.pause_time } := by
  unfold Game.update
  rw [hp]
  simp only [eq_self_iff_true, if_true]
  rw [if_neg (not_le.2 hlt)]

theorem Game.update_running_pause (g : Game) (inp : Input) (time dt : ℝ)
    (hp : g.pause = false) : (g.update inp time dt).pause = false := by
  unfold Game.update
  rw [hp]
  simp only [Bool.false_eq_true, if_false]

theorem Game.update_running_force_noW (g : Game) (inp : Input) (time dt : ℝ)
    (hp : g.pause = false) (hW : inp.keyW = false) :
    (g.update inp time dt).player.force = g.player.force.scaleBy 0.98 := by
  unfold Game.update
  rw [hp, hW]
  simp only [Bool.false_eq_true, if_false]
  rfl

theorem Game.update_running_force_W (g : Game) (inp : Input) (time dt : ℝ)
    (hp : g.pause = false) (hW : inp.keyW = true) :
    ∃ v : Vec2, (g.update inp time dt).player.force =
      v.clampAxes (-Player.MAX_SPEED) Player.MAX_SPEED := by
  unfold Game.update
  rw [hp, hW]
  simp only [Bool.false_eq_true, if_false, eq_self_iff_true, if_true]
  exact ⟨_, rfl⟩

theorem Game.levelup_player_force (g : Game) (u : ℕ → ℝ) :
    (g.levelup u).player.force = g.player.force := rfl

theorem Game.levelup_level (g : Game) (u : ℕ → ℝ) :
    (g.levelup u).level = g.level + 1 := rfl

theorem Game.levelCount_one : Game.levelCount 1 = 3 := by
  unfold Game.levelCount Game.DIFFICULTY
  rw [round_eq]
  norm_num

theorem Game.levelCount_two : Game.levelCount 2 = 5 := by
  unfold Game.levelCount Game.DIFFICULTY
  rw [round_eq]
  norm_num

theorem Game.levelup_asteroids_length (g : Game) (u : ℕ → ℝ) :
    (g.levelup u).asteroids.length =
      g.asteroids.length + (Game.levelCount (g.level + 1)).toNat := by
  simp [Game.levelup]

theorem genRange_mem (lo hi u : ℝ) (h : lo < hi) (hu : 0 ≤ u ∧ u < 1) :
    lo ≤ genRange lo hi u ∧ genRange lo hi u < hi := by
  unfold genRange
  constructor
  · nlinarith [hu.1, hu.2]
  · nlinarith [hu.1, hu.2]

theorem Game.setPause_player (g : Game) (time : ℝ) :
    (g.setPause time).player = g.player := rfl

/-! ## Claim theorems -/

/-- C10: a freshly constructed orchestrator starts in the Running state (pause
flag false) with level 0, pause-start and pause-duration 0, overlay flag false,
no obstacles, and the player spawned at the arena center with zero force,
rotation 0 and scale 1. -/
theorem C10_initial_state :
    Game.new.pause = false ∧ Game.new.level = 0 ∧ Game.new.pause_time = 0 ∧
    Game.new.pause_end = 0 ∧ Game.new.show_level = false ∧ Game.new.asteroids = [] ∧
    Game.new.player.model.position = ⟨(Game.WIDTH : ℝ) / 2, (Game.HEIGHT : ℝ) / 2⟩ ∧
    Game.new.player.force = ⟨0, 0⟩ ∧ Game.new.player.model.rotation = 0 ∧
    Game.new.player.model.scale = 1 :=
  ⟨rfl, rfl, rfl, rfl, rfl, rfl, rfl, rfl, rfl, rfl⟩

/-- C5: the wrap constraint acts on each axis independently: a negative
coordinate gains the arena extent (landing at or above 0 when it was within one
extent of the arena), a coordinate beyond the extent loses it, and a position
already inside the closed box, the boundary included, is left unchanged; the
points, rotation and scale of the model are untouched. -/
theorem C5_wrap {n : ℕ} (m : Model n) :
    ((m.apply_constraints).points = m.points ∧
     (m.apply_constraints).rotation = m.rotation ∧
     (m.apply_constraints).scale = m.scale) ∧
    (m.position.x < 0 → (m.apply_constraints).position.x = m.position.x + (Game.WIDTH : ℝ)) ∧
    (m.position.x < 0 → -(Game.WIDTH : ℝ) ≤ m.position.x → 0 ≤ (m.apply_constraints).position.x) ∧
    ((Game.WIDTH : ℝ) < m.position.x →
      (m.apply_constraints).position.x = m.position.x - (Game.WIDTH : ℝ)) ∧
    (0 ≤ m.position.x → m.position.x ≤ (Game.WIDTH : ℝ) →
      (m.apply_constraints).position.x = m.position.x) ∧
    (m.position.y < 0 → (m.apply_constraints).position.y = m.position.y + (Game.HEIGHT : ℝ)) ∧
    (m.position.y < 0 → -(Game.HEIGHT : ℝ) ≤ m.position.y → 0 ≤ (m.apply_constraints).position.y) ∧
    ((Game.HEIGHT : ℝ) < m.position.y →
      (m.apply_constraints).position.y = m.position.y - (Game.HEIGHT : ℝ)) ∧
    (0 ≤ m.position.y → m.position.y ≤ (Game.HEIGHT : ℝ) →
      (m.apply_constraints).position.y = m.position.y) ∧
    (0 ≤ m.position.x → m.position.x ≤ (Game.WIDTH : ℝ) →
      0 ≤ m.position.y → m.position.y ≤ (Game.HEIGHT : ℝ) →
      m.apply_constraints = m) := by
  have hW : ((Game.WIDTH : ℕ) : ℝ) = 800 := by norm_num [Game.WIDTH]
  have hH : ((Game.HEIGHT : ℕ) : ℝ) = 800 := by norm_num [Game.HEIGHT]
  refine ⟨⟨rfl, rfl, rfl⟩, ?_, ?_, ?_, ?_, ?_, ?_, ?_, ?_, ?_⟩
  · intro h
    rw [Model.apply_constraints_position_x, if_pos h]
  · intro h hge
    rw [Model.apply_constraints_position_x, if_pos h, hW]
    rw [hW] at hge
    linarith
  · intro h
    rw [Model.apply_constraints_position_x, if_neg (by linarith [hW ▸ h]), if_pos h]
  · intro h0 h1
    rw [Model.apply_constraints_position_x, if_neg (not_lt.2 h0), if_neg (not_lt.2 h1)]
  · intro h
    rw [Model.apply_constraints_position_y, if_pos h]
  · intro h hge
    rw [Model.apply_constraints_position_y, if_pos h, hH]
    rw [hH] at hge
    linarith
  · intro h
    rw [Model.apply_constraints_position_y, if_neg (by linarith [hH ▸ h]), if_pos h]
  · intro h0 h1
    rw [Model.apply_constraints_position_y, if_neg (not_lt.2 h0), if_neg (not_lt.2 h1)]
  · intro hx0 hx1 hy0 hy1
    show Model.apply_constraints m = m
    rw [Model.apply_constraints]
    rw [if_neg (not_lt.2 hx0), if_neg (not_lt.2 hx1), if_neg (not_lt.2 hy0),
      if_neg (not_lt.2 hy1)]

/-- C5 witness: on the concrete probe at position `(-5, 900)`, the wrap adds the
width on the x axis and subtracts the height on the y axis. -/
theorem C5_wrap_witness :
    (wrapProbe.apply_constraints).position.x = -5 + (Game.WIDTH : ℝ) ∧
    (wrapProbe.apply_constraints).position.y = 900 - (Game.HEIGHT : ℝ) := by
  have h := C5_wrap wrapProbe
  have hx : wrapProbe.position.x = -5 := rfl
  have hy : wrapProbe.position.y = 900 := rfl
  exact ⟨hx ▸ h.2.1 (by rw [hx]; norm_num),
    hy ▸ h.2.2.2.2.2.2.2.1 (by rw [hy]; norm_num [Game.HEIGHT])⟩

/-- C7: one obstacle step moves the position by `(direction / classSize) * 100
* dt` followed by the wrap constraint, leaves direction and class unchanged,
and the pre-wrap displacement times the class size is `direction * (100 * dt)`
independently of the class, so larger classes move proportionally slower. -/
theorem C7_asteroid_step (a : Asteroid) (dt : ℝ) :
    (a.apply dt).direction = a.direction ∧
    (a.apply dt).cls = a.cls ∧
    (a.apply dt).model =
      ({ a.model with position := a.model.position +
          ((a.direction.divBy a.cls.size).scaleBy Asteroid.SPEED).scaleBy dt }).apply_constraints ∧
    (((a.direction.divBy a.cls.size).scaleBy Asteroid.SPEED).scaleBy dt).scaleBy a.cls.size =
      a.direction.scaleBy (Asteroid.SPEED * dt) := by
  refine ⟨rfl, rfl, rfl, ?_⟩
  have hs : a.cls.size ≠ 0 := ne_of_gt (AsteroidType.size_pos a.cls)
  show (⟨_, _⟩ : Vec2) = ⟨_, _⟩
  rw [Vec2.mk.injEq]
  constructor <;> · field_simp [Vec2.divBy, Vec2.scaleBy]; ring

/-- C6: `draw_points` returns exactly N+1 points, the last equal to the first,
and each of the first N equal to the corresponding local point rotated by the
model rotation, scaled, then translated by the position; the model itself is
unchanged (the operation is a pure function in this embedding). -/
theorem C6_draw_points {n : ℕ} (m : Model n) :
    (m.draw_points).length = n + 1 ∧
    (m.draw_points).getLast? = (m.draw_points).head? ∧
    ∀ i : Fin n, (m.draw_points)[(i : ℕ)]? =
      some (((m.points i).rotate m.rotation).scaleBy m.scale + m.position) := by
  refine ⟨?_, ?_, ?_⟩
  · simp [Model.draw_points]
  · simp only [Model.draw_points]
    cases n with
    | zero => simp
    | succ k =>
      rw [List.getLast?_concat]
      simp [List.ofFn_succ]
  · intro i
    simp only [Model.draw_points]
    rw [List.getElem?_append_left (by simp [i.isLt]), List.getElem?_ofFn, List.ofFnNthVal,
      dif_pos (by simp [i.isLt])]

/-- C9: on the tick where the pause expires (current time minus the latched
pause start, the latch happening on this very tick when the start is still the
zero sentinel, reaches the pause duration), update exactly clears the pause
flag, the overlay flag and the pause start, and touches nothing else: the
player and every obstacle are unchanged. -/
theorem C9_pause_expiry (g : Game) (inp : Input) (time dt : ℝ)
    (hp : g.pause = true)
    (hexp : time - (if g.pause_time = 0 then time else g.pause_time) ≥ g.pause_end) :
    g.update inp time dt = { g with pause := false, show_level := false, pause_time := 0 } ∧
    (g.update inp time dt).player = g.player ∧
    (g.update inp time dt).asteroids = g.asteroids := by
  have h1 : g.update inp time dt =
      { g with pause := false, show_level := false, pause_time := 0 } := by
    unfold Game.update
    rw [hp]
    simp only [eq_self_iff_true, if_true]
    rw [if_pos hexp]
  exact ⟨h1, by rw [h1], by rw [h1]⟩

/-- C9 witness: a paused probe with latched start 1 and duration 2, updated at
time 3.5, comes out with the pause state fully cleared and the player intact. -/
theorem C9_pause_expiry_witness :
    pausedProbe.update noKeys 3.5 0 =
      { pausedProbe with pause := false, show_level := false, pause_time := 0 } ∧
    (pausedProbe.update noKeys 3.5 0).player = pausedProbe.player := by
  have h := C9_pause_expiry pausedProbe noKeys 3.5 0 rfl (by norm_num [pausedProbe])
  exact ⟨h.1, h.2.1⟩

/-- C8: across N consecutive non-paused ticks with no thrust input (rotation
keys arbitrary), the force is multiplied by the drag factor 0.98 each tick, so
after N ticks it equals the initial force scaled by `0.98 ^ N`, independently
of the clock readings and frame times; the game also stays unpaused. -/
theorem C8_drag_decay (g : Game) (inps : ℕ → Input) (times dts : ℕ → ℝ) (N : ℕ)
    (hpause : g.pause = false) (hW : ∀ k, (inps k).keyW = false) :
    (g.updates inps times dts N).player.force = g.player.force.scaleBy (0.98 ^ N) ∧
    (g.updates inps times dts N).pause = false := by
  induction N with
  | zero =>
    refine ⟨?_, hpause⟩
    simp [Game.updates, Vec2.scaleBy]
  | succ n ih =>
    obtain ⟨ih1, ih2⟩ := ih
    refine ⟨?_, Game.update_running_pause _ _ _ _ ih2⟩
    show ((g.updates inps times dts n).update (inps n) (times n) (dts n)).player.force = _
    rw [Game.update_running_force_noW _ _ _ _ ih2 (hW n), ih1]
    simp only [Vec2.scaleBy, Vec2.mk.injEq]
    constructor <;> ring

/-- C8 witness: a fresh game with force (100, 0) undergoes one no-thrust tick
and ends with force (98, 0). -/
theorem C8_drag_decay_witness :
    (dragProbe.updates (fun _ => noKeys) (fun _ => 0) (fun _ => 0) 1).player.force =
      ⟨98, 0⟩ := by
  have h := C8_drag_decay dragProbe (fun _ => noKeys) (fun _ => 0) (fun _ => 0) 1
    rfl (fun k => rfl)
  rw [h.1]
  show Vec2.scaleBy ⟨100, 0⟩ (0.98 ^ 1) = ⟨98, 0⟩
  simp only [Vec2.scaleBy, Vec2.mk.injEq]
  norm_num

/-- C4: every game state reachable from `Game::new` through any sequence of
update ticks (with arbitrary input), level-ups and pause calls keeps both axes
of the player force within `MAX_SPEED = 300` in absolute value: thrusting
clamps each axis to `[-MAX_SPEED, MAX_SPEED]` and every other operation can
only keep or shrink the force. -/
theorem C4_force_bounded (g : Game) (h : Reachable g) : forceBounded g := by
  induction h with
  | new =>
    constructor <;> norm_num [Game.new, Player.spawn, Player.MAX_SPEED, forceBounded]
  | update g inp time dt hg ih =>
    by_cases hp : g.pause = true
    · have hpl := Game.update_paused_player g inp time dt hp
      unfold forceBounded
      rw [hpl]
      exact ih
    · have hp2 : g.pause = false := by
        cases hb : g.pause
        · rfl
        · exact absurd hb hp
      by_cases hWc : inp.keyW = true
      · obtain ⟨v, hv⟩ := Game.update_running_force_W g inp time dt hp2 hWc
        unfold forceBounded
        rw [hv]
        exact Vec2.abs_clampAxes_le v Player.MAX_SPEED (by norm_num [Player.MAX_SPEED])
      · have hW2 : inp.keyW = false := by
          cases hb : inp.keyW
          · rfl
          · exact absurd hb hWc
        obtain ⟨ih1, ih2⟩ := ih
        unfold forceBounded
        rw [Game.update_running_force_noW g inp time dt hp2 hW2]
        have hM : (0 : ℝ) ≤ Player.MAX_SPEED := by norm_num [Player.MAX_SPEED]
        constructor
        · show |g.player.force.x * 0.98| ≤ _
          rw [abs_mul, abs_of_pos (by norm_num : (0 : ℝ) < 0.98)]
          linarith [abs_nonneg g.player.force.x]
        · show |g.player.force.y * 0.98| ≤ _
          rw [abs_mul, abs_of_pos (by norm_num : (0 : ℝ) < 0.98)]
          linarith [abs_nonneg g.player.force.y]
  | levelup g u hg ih => exact ih
  | pauseCall g time hg ih => exact ih

/-- C4 witness: the invariant evaluated at the reachable state `Game::new`,
where the force is (0, 0). -/
theorem C4_force_bounded_witness :
    |Game.new.player.force.x| ≤ Player.MAX_SPEED ∧
    |Game.new.player.force.y| ≤ Player.MAX_SPEED :=
  C4_force_bounded Game.new Reachable.new

/-- C1 counterexample: `levelup` does not discard the previous obstacles — it
only reserves capacity and pushes — so after a second level-up the collection
holds 8 obstacles (3 from level 1 plus 5 from level 2), not the
`round(level * 2.5) = 5` the claim requires. -/
theorem C1_counterexample :
    ((Game.new.levelup zeroU).levelup zeroU).asteroids.length ≠
      (Game.levelCount ((Game.new.levelup zeroU).levelup zeroU).level).toNat ∧
    ((Game.new.levelup zeroU).levelup zeroU).asteroids.length = 8 ∧
    (Game.levelCount ((Game.new.levelup zeroU).levelup zeroU).level).toNat = 5 := by
  have hlevel : ((Game.new.levelup zeroU).levelup zeroU).level = 2 := rfl
  have hc2 : (Game.levelCount 2).toNat = 5 := by rw [Game.levelCount_two]; rfl
  have hlen : ((Game.new.levelup zeroU).levelup zeroU).asteroids.length = 8 := by
    rw [Game.levelup_asteroids_length, Game.levelup_asteroids_length]
    simp only [Game.levelup_level]
    norm_num [Game.new, Game.levelCount_one, Game.levelCount_two]
    decide
  rw [hlevel, hlen, hc2]
  norm_num

/-- C1 (amended): `levelUp` increments the level by 1, resets the player to the
arena center, APPENDS exactly `round(level * 2.5)` fresh obstacles after the
ones already present (the previous obstacles are kept, so the new collection
size is the old size plus that count), places the fresh obstacles at angles
evenly spaced around a full circle with each placement coordinate using its own
radius drawn from `[150, 300)`, sets the pause flag with pause duration 2.0
seconds, and enables the level overlay. -/
theorem C1_levelup_amended (g : Game) (u : ℕ → ℝ) (hu : UnitStream u) :
    (g.levelup u).level = g.level + 1 ∧
    (g.levelup u).player.model.position = ⟨Game.MID_X, Game.MID_Y⟩ ∧
    (g.levelup u).asteroids.length =
      g.asteroids.length + (Game.levelCount (g.level + 1)).toNat ∧
    (g.levelup u).pause = true ∧
    (g.levelup u).pause_end = 2 ∧
    (g.levelup u).show_level = true ∧
    ∀ i : ℕ, ∀ hi : i < (Game.levelCount (g.level + 1)).toNat,
      ∃ r1 r2 : ℝ,
        (Game.CLOSEST ≤ r1 ∧ r1 < Game.CLOSEST * 2) ∧
        (Game.CLOSEST ≤ r2 ∧ r2 < Game.CLOSEST * 2) ∧
        (g.levelup u).asteroids[g.asteroids.length + i]? =
          some (Asteroid.spawn
            ⟨Real.sin ((i : ℝ) *
                (2 * Real.pi / ((Game.levelCount (g.level + 1) : ℤ) : ℝ))) * r1 + Game.MID_X,
             Real.cos ((i : ℝ) *
                (2 * Real.pi / ((Game.levelCount (g.level + 1) : ℤ) : ℝ))) * r2 + Game.MID_Y⟩
            (streamDrop u (25 * i + 2))) := by
  refine ⟨rfl, rfl, Game.levelup_asteroids_length g u, rfl, by norm_num [Game.levelup], rfl, ?_⟩
  intro i hi
  refine ⟨genRange Game.CLOSEST (Game.CLOSEST * 2) (u (25 * i)),
    genRange Game.CLOSEST (Game.CLOSEST * 2) (u (25 * i + 1)),
    genRange_mem _ _ _ (by norm_num [Game.CLOSEST]) (hu _),
    genRange_mem _ _ _ (by norm_num [Game.CLOSEST]) (hu _), ?_⟩
  simp only [Game.levelup]
  rw [List.getElem?_append_right (by omega)]
  simp only [Nat.add_sub_cancel_left]
  rw [List.getElem?_ofFn, List.ofFnNthVal, dif_pos hi]

/-- C1 witness: from a fresh game with the all-zero stream, one `levelup`
yields level 1, exactly 3 obstacles, and the pause and overlay flags set with
duration 2. -/
theorem C1_levelup_amended_witness :
    (Game.new.levelup zeroU).level = 1 ∧
    (Game.new.levelup zeroU).asteroids.length = 3 ∧
    (Game.new.levelup zeroU).pause = true ∧
    (Game.new.levelup zeroU).pause_end = 2 ∧
    (Game.new.levelup zeroU).show_level = true := by
  have h := C1_levelup_amended Game.new zeroU (fun k => by norm_num [zeroU])
  refine ⟨h.1, ?_, h.2.2.2.1, h.2.2.2.2.1, h.2.2.2.2.2.1⟩
  rw [h.2.2.1]
  norm_num [Game.new, Game.levelCount_one]
  decide

/-- C2: the code behavior at the claimed input. After `levelup` on a fresh
game, updating with clock reading 0.0 latches the pause start to 0.0 — which is
indistinguishable from the unlatched sentinel — so the update at clock 2.1
re-latches the start to 2.1 instead of ending the pause: both the pause flag
and the overlay flag are still true (the claim expects them false). The
obstacle collection is indeed untouched at size 3. -/
theorem C2_pause_not_cleared :
    (((Game.new.levelup zeroU).update noKeys 0 0).update noKeys 2.1 0).pause = true ∧
    (((Game.new.levelup zeroU).update noKeys 0 0).update noKeys 2.1 0).show_level = true ∧
    (((Game.new.levelup zeroU).update noKeys 0 0).update noKeys 2.1 0).asteroids.length
      = 3 := by
  have e1 : (Game.new.levelup zeroU).pause_time = 0 := rfl
  have e2 : (Game.new.levelup zeroU).pause_end = 2 := by norm_num [Game.levelup]
  have h1 : (Game.new.levelup zeroU).update noKeys 0 0 =
      { Game.new.levelup zeroU with pause_time := 0 } := by
    have hs := Game.update_paused_stall (Game.new.levelup zeroU) noKeys 0 0 rfl
      (by rw [e1, e2]; norm_num)
    rw [hs, e1]
    norm_num
  have h2 : ({ Game.new.levelup zeroU with pause_time := 0 } : Game).update noKeys 2.1 0 =
      { Game.new.levelup zeroU with pause_time := 2.1 } := by
    have hs := Game.update_paused_stall
      ({ Game.new.levelup zeroU with pause_time := 0 }) noKeys 2.1 0 rfl
      (by
        show (2.1 : ℝ) - (if (0 : ℝ) = 0 then 2.1 else 0) < (Game.new.levelup zeroU).pause_end
        rw [e2]
        norm_num)
    rw [hs]
    norm_num
  rw [h1, h2]
  refine ⟨rfl, rfl, ?_⟩
  show (Game.new.levelup zeroU).asteroids.length = 3
  rw [Game.levelup_asteroids_length]
  norm_num [Game.new, Game.levelCount_one]
  decide

/-- C3 counterexample: under the injected stream whose sample 5 is 1/2 and all
other samples 0, the spawned class is Small (radius range [6, 24)) and polygon
point 1 is `(sin(2pi/9) * 15, cos(2pi/9) * 6)`: the x and y components use two
different radii (the source draws `gen_range` twice per point), so no single
radius r reproduces the point, refuting the claim. -/
theorem C3_counterexample :
    UnitStream exU ∧
    ¬ ∃ r : ℝ, (Asteroid.spawn ⟨0, 0⟩ exU).model.points ⟨1, by norm_num⟩ =
        ⟨Real.sin (Asteroid.angleAt 1) * r, Real.cos (Asteroid.angleAt 1) * r⟩ := by
  constructor
  · intro k
    unfold exU
    split_ifs <;> norm_num
  · have hcls : AsteroidType.random (exU 0) = AsteroidType.Small := by
      norm_num [exU, AsteroidType.random]
    have hval : (Asteroid.spawn ⟨0, 0⟩ exU).model.points ⟨1, by norm_num⟩ =
        ⟨Real.sin (Asteroid.angleAt 1) * 15, Real.cos (Asteroid.angleAt 1) * 6⟩ := by
      simp only [Asteroid.spawn, Model.new]
      rw [hcls]
      norm_num [Asteroid.DEFAULT_MIN, Asteroid.DEFAULT_MAX, AsteroidType.size, genRange,
        exU, Vec2.mk.injEq]
    rintro ⟨r, hr⟩
    rw [hval, Vec2.mk.injEq] at hr
    have hθ : Asteroid.angleAt 1 = 2 * Real.pi / 9 := by norm_num [Asteroid.angleAt]
    have hπ := Real.pi_pos
    have hsin : Real.sin (Asteroid.angleAt 1) ≠ 0 := by
      rw [hθ]
      exact ne_of_gt (Real.sin_pos_of_pos_of_lt_pi (by linarith) (by linarith))
    have hcos : Real.cos (Asteroid.angleAt 1) ≠ 0 := by
      rw [hθ]
      exact ne_of_gt (Real.cos_pos_of_mem_Ioo ⟨by linarith, by linarith⟩)
    have h15 : (15 : ℝ) = r := mul_left_cancel₀ hsin hr.1
    have h6 : (6 : ℝ) = r := mul_left_cancel₀ hcos hr.2
    rw [← h15] at h6
    norm_num at h6

/-- C3 (amended): for every injected unit stream, every spawned polygon point i
equals `(sin(angle_i) * r1, cos(angle_i) * r2)` for TWO independently sampled
radii r1, r2 (one per component, matching the two `gen_range` calls in the
source), each lying in `[20 * classSize, 80 * classSize)`, with the angle
walking from 0 to 2pi in 9 equal increments. -/
theorem C3_spawn_amended (position : Vec2) (u : ℕ → ℝ) (hu : UnitStream u) (i : Fin 10) :
    ∃ r1 r2 : ℝ,
      (Asteroid.DEFAULT_MIN * (Asteroid.spawn position u).cls.size ≤ r1 ∧
        r1 < Asteroid.DEFAULT_MAX * (Asteroid.spawn position u).cls.size) ∧
      (Asteroid.DEFAULT_MIN * (Asteroid.spawn position u).cls.size ≤ r2 ∧
        r2 < Asteroid.DEFAULT_MAX * (Asteroid.spawn position u).cls.size) ∧
      (Asteroid.spawn position u).model.points i =
        ⟨Real.sin (Asteroid.angleAt (i : ℕ)) * r1,
         Real.cos (Asteroid.angleAt (i : ℕ)) * r2⟩ := by
  have hsize : 0 < (Asteroid.spawn position u).cls.size := AsteroidType.size_pos _
  have hlt : Asteroid.DEFAULT_MIN * (Asteroid.spawn position u).cls.size <
      Asteroid.DEFAULT_MAX * (Asteroid.spawn position u).cls.size := by
    simp only [Asteroid.DEFAULT_MIN, Asteroid.DEFAULT_MAX]
    nlinarith [hsize]
  exact ⟨_, _, genRange_mem _ _ (u (3 + 2 * (i : ℕ))) hlt (hu _),
    genRange_mem _ _ (u (4 + 2 * (i : ℕ))) hlt (hu _), rfl⟩

/-- C3 witness: the amended theorem evaluated at the all-zero stream and point
0 of the spawned asteroid. -/
theorem C3_spawn_amended_witness :
    ∃ r1 r2 : ℝ,
      (Asteroid.DEFAULT_MIN * (Asteroid.spawn ⟨0, 0⟩ zeroU).cls.size ≤ r1 ∧
        r1 < Asteroid.DEFAULT_MAX * (Asteroid.spawn ⟨0, 0⟩ zeroU).cls.size) ∧
      (Asteroid.DEFAULT_MIN * (Asteroid.spawn ⟨0, 0⟩ zeroU).cls.size ≤ r2 ∧
        r2 < Asteroid.DEFAULT_MAX * (Asteroid.spawn ⟨0, 0⟩ zeroU).cls.size) ∧
      (Asteroid.spawn ⟨0, 0⟩ zeroU).model.points ⟨0, by norm_num⟩ =
        ⟨Real.sin (Asteroid.angleAt 0) * r1, Real.cos (Asteroid.angleAt 0) * r2⟩ :=
  C3_spawn_amended ⟨0, 0⟩ zeroU (fun k => by norm_num [zeroU]) ⟨0, by norm_num⟩

end AsteroidsRs
